import Mathlib

/-!
# Pimg upload-orchestration core: shallow embedding and verification

A shallow embedding of the upload orchestration core of the Pimg Obsidian
plugin (`src/main.ts`, primary variant, and the gate/precondition prologue of
the gist variant in `src/unnamed/part_000`).

The TypeScript core is event-loop sequential; all external effects (the
`fetch` call of `uploadToGitHub`, and the path-allocation / byte-write /
resource-resolution steps of `fallbackToLocalSave`) are modelled by an
explicit environment value that fixes each collaborator's outcome, and the
observable side effects (notices shown, editor insertions, network calls,
local binary writes, settings saves, the progress indicator) are collected in
an `Effects` record.  The single-flight gate is the `isUploading` boolean of
the plugin state, exactly as in the source.
-/

namespace Pimg

/-- Settings of the primary variant (`PimgSettings` in `src/main.ts`).
`creditsBalance` is a JS number used integrally; modelled as `Int`. -/
structure PimgSettings where
  pimgAPIKey : String
  githubAccessToken : String
  githubUsername : String
  githubRepository : String
  enableOnPaste : Bool
  enableOnDrop : Bool
  showUploadProgress : Bool
  fallbackToLocal : Bool
  creditsBalance : Int
deriving Repr, DecidableEq

/-- `DEFAULT_SETTINGS` of `src/main.ts`. -/
def DEFAULT_SETTINGS : PimgSettings :=
  { pimgAPIKey := ""
    githubAccessToken := ""
    githubUsername := ""
    githubRepository := ""
    enableOnPaste := true
    enableOnDrop := true
    showUploadProgress := true
    fallbackToLocal := true
    creditsBalance := 500 }

/-- An image payload: the `File` object handed to `uploadImageFile`
(name, MIME type, raw bytes). -/
structure ImageFile where
  name : String
  mime : String
  bytes : List Nat
deriving Repr, DecidableEq

/-- The JSON body shape of a worker response:
`{success: bool, imageUrl?: string, error?: string}`. -/
structure RespJson where
  success : Bool
  imageUrl : Option String
  error : Option String
deriving Repr, DecidableEq

instance {ε α : Type} [DecidableEq ε] [DecidableEq α] :
    DecidableEq (Except ε α) := fun x y =>
  match x, y with
  | .error a, .error b =>
    if h : a = b then .isTrue (by rw [h]) else .isFalse (by simp [h])
  | .error _, .ok _ => .isFalse (by simp)
  | .ok _, .error _ => .isFalse (by simp)
  | .ok a, .ok b =>
    if h : a = b then .isTrue (by rw [h]) else .isFalse (by simp [h])

/-- Outcome of the single `fetch` POST issued by `uploadToGitHub`: either the
transport faults (the promise rejects), or a response arrives with an HTTP
status, a body text, and a JSON parse result (`Except.error` models
`response.json()` rejecting on a malformed body). -/
inductive FetchOutcome where
  | fault (msg : String)
  | response (status : Nat) (text : String) (body : Except String RespJson)
deriving Repr, DecidableEq

/-- Environment of one `fallbackToLocalSave` run, fixing which step (if any)
of path allocation → byte write → resource resolution throws.
`earlyFail`: `getAvailablePathForAttachment` or `file.arrayBuffer()` throws
(before any write); `writeFail`: `vault.createBinary` is called but throws;
`resolveFail`: the write succeeds but `getResourcePath` throws; `okEnv`
carries the allocated vault path and the resolved local URL. -/
inductive FallbackEnv where
  | earlyFail (msg : String)
  | writeFail (msg : String)
  | resolveFail (msg : String)
  | okEnv (path : String) (url : String)
deriving Repr, DecidableEq

/-- Environment of one `uploadImageFile` run. -/
structure UploadEnv where
  fetch : FetchOutcome
  fallback : FallbackEnv
deriving Repr, DecidableEq

/-- Plugin state visible to the orchestration: the single-flight gate flag
`isUploading` and the settings. -/
structure UploadState where
  isUploading : Bool
  settings : PimgSettings
deriving Repr, DecidableEq

/-- Observable side effects of one call: notices shown (via `new Notice`,
excluding the progress indicator, which is tracked by the two progress
fields), editor insertions (`editor.replaceSelection` arguments), number of
`fetch` calls, local binary writes (`vault.createBinary` path/bytes
arguments), and `saveSettings` calls. -/
structure Effects where
  notices : List String
  progressShown : Bool
  progressDismissed : Bool
  insertions : List String
  networkCalls : Nat
  writes : List (String × List Nat)
  saves : Nat
deriving Repr, DecidableEq

/-- No side effects. -/
def Effects.empty : Effects :=
  { notices := []
    progressShown := false
    progressDismissed := false
    insertions := []
    networkCalls := 0
    writes := []
    saves := 0 }

/-- `uploadToGitHub` of `src/main.ts` as a function of the fetch outcome:
transport fault → throw; non-2xx (`!response.ok`) → throw
`HTTP <status>: <text>`; body parse failure → throw; otherwise return
`result.success ? result.imageUrl : null`.  `Except.error` models a thrown
error (by its message), `Except.ok` the returned `string | null`.
The payload and credential fields only shape the request, not the decision
tree, so they are carried but unused here. -/
def uploadToGitHub (cfg : PimgSettings) (file : ImageFile)
    (fo : FetchOutcome) : Except String (Option String) :=
  match cfg, file, fo with
  | _, _, .fault msg => .error msg
  | _, _, .response status text body =>
    if 200 ≤ status ∧ status < 300 then
      match body with
      | .error msg => .error msg
      | .ok j => .ok (if j.success then j.imageUrl else none)
    else
      .error ("HTTP " ++ toString status ++ ": " ++ text)

/-- The complete remote attempt as the orchestrator's `try` block sees it:
the `uploadToGitHub` call followed by the JS truthiness test
`if (imageUrl) {...} else { throw new Error('Upload failed') }`
(`null`, `undefined` and `""` are all falsy). -/
def remoteAttempt (cfg : PimgSettings) (file : ImageFile)
    (fo : FetchOutcome) : Except String String :=
  match uploadToGitHub cfg file fo with
  | .error msg => .error msg
  | .ok none => .error "Upload failed"
  | .ok (some u) => if u = "" then .error "Upload failed" else .ok u

/-- Effects produced by `fallbackToLocalSave` of `src/main.ts`: allocate a
path, read the bytes, `createBinary`, resolve, insert
`![<name>](<local url>)` and notify; any step throwing lands in the
`catch` that emits the terminal both-failed notice. -/
def fallbackToLocalSave (file : ImageFile) (env : FallbackEnv) : Effects :=
  match env with
  | .earlyFail _ =>
    { Effects.empty with
      notices := ["Both GitHub upload and local fallback failed"] }
  | .writeFail _ =>
    { Effects.empty with
      notices := ["Both GitHub upload and local fallback failed"]
      writes := [("", file.bytes)] }
  | .resolveFail _ =>
    { Effects.empty with
      notices := ["Both GitHub upload and local fallback failed"]
      writes := [("", file.bytes)] }
  | .okEnv path url =>
    { Effects.empty with
      notices := ["Image saved locally as fallback"]
      insertions := ["![" ++ file.name ++ "](" ++ url ++ ")"]
      writes := [(path, file.bytes)] }

/-- The precondition prologue of `uploadImageFile` (`src/main.ts` lines
99–110), i.e. everything before `this.isUploading = true`: `some notice`
means the call returns at that check with exactly that notice and no other
effect; `none` means the call proceeds past the gate.
`!key || key === ""` on a string is equivalent to `key === ""`. -/
def uploadPrologue (st : UploadState) : Option String :=
  if st.isUploading then
    some "Another upload is in progress. Please wait."
  else if st.settings.pimgAPIKey = "" then
    some "Pimg API key is not set. Please set it in the plugin settings."
  else if st.settings.creditsBalance ≤ 0 then
    some "No credits remaining. Please purchase more credits."
  else
    none

/-- The `try`/`catch`/`finally` body of `uploadImageFile`, entered with the
gate flag already set (`st.isUploading = true`).  On a truthy URL: insert the
markdown reference, decrement the credits counter, save settings, dismiss the
progress notice, emit the success notice.  On any thrown error: dismiss the
progress notice, then either run the local fallback (when `fallbackToLocal`)
or emit the failure notice carrying `error.message`.  The `finally` clause
clears the gate flag on every path. -/
def uploadBody (st : UploadState) (file : ImageFile) (env : UploadEnv) :
    UploadState × Effects :=
  let shown := st.settings.showUploadProgress
  match remoteAttempt st.settings file env.fetch with
  | .ok url =>
    ({ isUploading := false
       settings :=
        { st.settings with creditsBalance := st.settings.creditsBalance - 1 } },
     { notices := ["✅ Image uploaded successfully!"]
       progressShown := shown
       progressDismissed := shown
       insertions := ["![" ++ file.name ++ "](" ++ url ++ ")"]
       networkCalls := 1
       writes := []
       saves := 1 })
  | .error msg =>
    if st.settings.fallbackToLocal then
      let fb := fallbackToLocalSave file env.fallback
      ({ st with isUploading := false },
       { notices := "GitHub upload failed. Saving image locally..." :: fb.notices
         progressShown := shown
         progressDismissed := shown
         insertions := fb.insertions
         networkCalls := 1
         writes := fb.writes
         saves := 0 })
    else
      ({ st with isUploading := false },
       { notices := ["GitHub upload failed: " ++ msg]
         progressShown := shown
         progressDismissed := shown
         insertions := []
         networkCalls := 1
         writes := []
         saves := 0 })

/-- `uploadImageFile` of `src/main.ts`: precondition prologue, then (with the
gate flag set) the orchestration body. -/
def uploadImageFile (st : UploadState) (file : ImageFile) (env : UploadEnv) :
    UploadState × Effects :=
  match uploadPrologue st with
  | some n => (st, { Effects.empty with notices := [n] })
  | none => uploadBody { st with isUploading := true } file env

/-- `s.startsWith(p)` of JS strings, as a structurally recursive character
comparison (`String.startsWith` of the Lean library is extensionally the
same but is defined by well-founded recursion over byte positions and so
does not evaluate inside the kernel). -/
def strStartsWith (s p : String) : Bool :=
  p.data.isPrefixOf s.data

/-- One clipboard data item: a MIME type and the result of `getAsFile()`
(`none` models a null return). -/
structure ClipboardItem where
  type : String
  asFile : Option ImageFile
deriving Repr, DecidableEq

/-- Observable outcome of one paste event: the files handed to
`uploadImageFile` (in order) and whether `event.preventDefault()` ran. -/
structure PasteEffects where
  uploads : List ImageFile
  prevented : Bool
deriving Repr, DecidableEq

/-- The item scan loop of `handlePaste` (`src/main.ts` lines 62–72): walk the
items in order; at the first item whose type starts with `image/` AND whose
`getAsFile()` is non-null, prevent default, upload that file, `break`.
An image-typed item with a null file is passed over and the loop continues. -/
def handlePasteScan : List ClipboardItem → PasteEffects
  | [] => { uploads := [], prevented := false }
  | it :: rest =>
    if strStartsWith it.type "image/" then
      match it.asFile with
      | some f => { uploads := [f], prevented := true }
      | none => handlePasteScan rest
    else
      handlePasteScan rest

/-- `handlePaste` of `src/main.ts`: a null `event.clipboardData` returns
immediately, otherwise the items are scanned. -/
def handlePaste (clipboardData : Option (List ClipboardItem)) : PasteEffects :=
  match clipboardData with
  | none => { uploads := [], prevented := false }
  | some items => handlePasteScan items

/-- An item the scan uploads: image-typed and yielding a non-null file. -/
def uploadableItem (it : ClipboardItem) : Bool :=
  strStartsWith it.type "image/" && it.asFile.isSome

end Pimg

namespace PimgGist

/-- Settings of the gist variant (`PimgSettings` in
`src/unnamed/part_000`). -/
structure GistSettings where
  githubAccessToken : String
  githubUsername : String
  workerUrl : String
  enableOnPaste : Bool
  enableOnDrop : Bool
  showUploadProgress : Bool
  fallbackToLocal : Bool
deriving Repr, DecidableEq

/-- The precondition prologue of the gist variant's `uploadImageFile`
(`src/unnamed/part_000` lines 93–104): gate check, then the GitHub access
token, then the worker URL (the configurable endpoint); `some notice` is a
fast-fail rejection before the gate flag is ever set, `none` proceeds. -/
def uploadPrologue (isUploading : Bool) (s : GistSettings) : Option String :=
  if isUploading then
    some "Another upload is in progress. Please wait."
  else if s.githubAccessToken = "" then
    some "GitHub Access Token is not set. Please set it in the plugin settings."
  else if s.workerUrl = "" then
    some "Worker URL is not set. Please set it in the plugin settings."
  else
    none

end PimgGist

open Pimg

/-- Sample settings: the defaults with an API key configured. -/
def sampleSettings : PimgSettings :=
  { DEFAULT_SETTINGS with pimgAPIKey := "key" }

/-- The spec's end-to-end sample payload: one PNG of 10 bytes named
`clipboard.png`. -/
def sampleFile : ImageFile :=
  { name := "clipboard.png", mime := "image/png"
    bytes := [1, 2, 3, 4, 5, 6, 7, 8, 9, 10] }

/-- A 2xx response whose body reports success with the spec's sample URL. -/
def successFetch : FetchOutcome :=
  .response 200 ""
    (.ok { success := true, imageUrl := some "https://cdn.example/x.png"
           error := none })

/-- The spec's transport-fault stub: the fetch rejects with `network down`. -/
def downFetch : FetchOutcome := .fault "network down"

/-- A fallback environment in which every local step succeeds. -/
def sampleFallback : FallbackEnv :=
  .okEnv "vault/clipboard.png" "app://local/clipboard.png"

/-- Gist-variant settings with an empty access token. -/
def gistNoToken : PimgGist.GistSettings :=
  { githubAccessToken := "", githubUsername := "user"
    workerUrl := "https://w.example.workers.dev"
    enableOnPaste := true, enableOnDrop := true
    showUploadProgress := true, fallbackToLocal := true }

/-- Gist-variant settings with a token but an empty worker URL. -/
def gistNoUrl : PimgGist.GistSettings :=
  { gistNoToken with githubAccessToken := "tok", workerUrl := "" }

/-- A parsed 2xx body carrying `success=false` and an embedded error
message. -/
def c4Body : RespJson :=
  { success := false, imageUrl := none, error := some "quota exceeded" }

/-- The image file sitting at index 2 of `c5Items`. -/
def c5File : ImageFile := { name := "late.jpg", mime := "image/jpeg", bytes := [7] }

/-- A clipboard item list whose first image-typed item (index 0) yields a
null file while a later image-typed item (index 2) yields a real file. -/
def c5Items : List ClipboardItem :=
  [{ type := "image/png", asFile := none },
   { type := "text/plain", asFile := none },
   { type := "image/jpeg", asFile := some c5File }]

/-- Helper: a call that finds the gate flag clear is never rejected with the
in-progress notice (it may still fail a configuration precondition, but with
a different notice). -/
theorem uploadPrologue_not_gate_busy (s : UploadState) (h : s.isUploading = false) :
    uploadPrologue s ≠ some "Another upload is in progress. Please wait." := by
  unfold uploadPrologue
  rw [h]
  by_cases hk : s.settings.pimgAPIKey = "" <;>
    by_cases hc : s.settings.creditsBalance ≤ 0 <;>
    simp [hk, hc]

/-- Helper: the final state of any call that finds the gate clear has the
gate clear again. -/
theorem uploadImageFile_clears_gate (st : UploadState) (file : ImageFile)
    (env : UploadEnv) (h : st.isUploading = false) :
    (uploadImageFile st file env).1.isUploading = false := by
  unfold uploadImageFile
  cases hp : uploadPrologue st with
  | some n => simpa using h
  | none =>
    unfold uploadBody
    cases hr : remoteAttempt st.settings file env.fetch with
    | ok u => rfl
    | error m =>
      by_cases hf : st.settings.fallbackToLocal = true <;> simp [hf]

/-- C1: once a first `uploadImageFile` call proceeds past the gate
(`uploadPrologue st = none`), the gate flag is set for the whole in-flight
section, so every overlapping call observing that state is rejected
synchronously with exactly the in-progress notice and performs no editor
mutation, no network call, no local write, no save, and no state change. -/
theorem c1_mutual_exclusion (st : UploadState) (f2 : ImageFile) (e2 : UploadEnv)
    (_h : uploadPrologue st = none) :
    uploadImageFile { st with isUploading := true } f2 e2 =
      ({ st with isUploading := true },
       { Effects.empty with
         notices := ["Another upload is in progress. Please wait."] }) := by
  simp [uploadImageFile, uploadPrologue]

/-- Witness for C1 at a concrete overlapping pair. -/
theorem c1_mutual_exclusion_witness :
    uploadImageFile { isUploading := true, settings := sampleSettings }
        sampleFile ⟨successFetch, sampleFallback⟩ =
      ({ isUploading := true, settings := sampleSettings },
       { Effects.empty with
         notices := ["Another upload is in progress. Please wait."] }) :=
  c1_mutual_exclusion ⟨false, sampleSettings⟩ sampleFile
    ⟨successFetch, sampleFallback⟩ (by decide)

/-- C2: for every invocation that finds the gate clear and every outcome the
environment can produce (success, remote-fail then fallback-success,
remote-fail then fallback-fail, configuration or credits precondition
failure, or a fault thrown by the fetch or any fallback step), the gate flag
is clear after the call settles, and a subsequent invocation is never
rejected with the in-progress notice. -/
theorem c2_gate_release (st : UploadState) (file : ImageFile) (env : UploadEnv)
    (h : st.isUploading = false) :
    (uploadImageFile st file env).1.isUploading = false ∧
    uploadPrologue (uploadImageFile st file env).1 ≠
      some "Another upload is in progress. Please wait." := by
  have h1 := uploadImageFile_clears_gate st file env h
  exact ⟨h1, uploadPrologue_not_gate_busy _ h1⟩

/-- Witness for C2 at a concrete call. -/
theorem c2_gate_release_witness :
    (uploadImageFile ⟨false, sampleSettings⟩ sampleFile
        ⟨downFetch, sampleFallback⟩).1.isUploading = false ∧
    uploadPrologue (uploadImageFile ⟨false, sampleSettings⟩ sampleFile
        ⟨downFetch, sampleFallback⟩).1 ≠
      some "Another upload is in progress. Please wait." :=
  c2_gate_release ⟨false, sampleSettings⟩ sampleFile
    ⟨downFetch, sampleFallback⟩ rfl

/-- C9: in the credits-based variant, a call that passes the gate and API-key
checks but finds `creditsBalance ≤ 0` returns before acquiring the gate, with
exactly the no-credits notice and no network call, no editor mutation, no
write, no save, and no state change. -/
theorem c9_no_credits (st : UploadState) (file : ImageFile) (env : UploadEnv)
    (h1 : st.isUploading = false)
    (h2 : st.settings.pimgAPIKey ≠ "")
    (h3 : st.settings.creditsBalance ≤ 0) :
    uploadImageFile st file env =
      (st, { Effects.empty with
             notices := ["No credits remaining. Please purchase more credits."] }) := by
  unfold uploadImageFile uploadPrologue
  rw [h1]
  simp [h2, h3]

/-- Witness for C9 at a concrete zero-credit state. -/
theorem c9_no_credits_witness :
    uploadImageFile ⟨false, { sampleSettings with creditsBalance := 0 }⟩
        sampleFile ⟨successFetch, sampleFallback⟩ =
      (⟨false, { sampleSettings with creditsBalance := 0 }⟩,
       { Effects.empty with
         notices := ["No credits remaining. Please purchase more credits."] }) :=
  c9_no_credits ⟨false, { sampleSettings with creditsBalance := 0 }⟩
    sampleFile ⟨successFetch, sampleFallback⟩ rfl (by decide) (by decide)

/-- C8: a validated required configuration field left empty makes
`uploadImageFile` fast-fail with exactly one notice naming the missing
setting, before any network call, editor mutation, write, save, or state
change, and with the gate never acquired.  The primary variant validates the
Pimg API key (its endpoint is a compile-time constant); the gist variant
validates the GitHub access token and then the worker URL (its configurable
endpoint). -/
theorem c8_config_missing :
    (∀ (st : UploadState) (file : ImageFile) (env : UploadEnv),
      st.isUploading = false → st.settings.pimgAPIKey = "" →
      uploadImageFile st file env =
        (st, { Effects.empty with
               notices := ["Pimg API key is not set. Please set it in the plugin settings."] })) ∧
    (∀ s : PimgGist.GistSettings, s.githubAccessToken = "" →
      PimgGist.uploadPrologue false s =
        some "GitHub Access Token is not set. Please set it in the plugin settings.") ∧
    (∀ s : PimgGist.GistSettings, s.githubAccessToken ≠ "" → s.workerUrl = "" →
      PimgGist.uploadPrologue false s =
        some "Worker URL is not set. Please set it in the plugin settings.") := by
  refine ⟨?_, ?_, ?_⟩
  · intro st file env h1 h2
    unfold uploadImageFile uploadPrologue
    rw [h1]
    simp [h2]
  · intro s h
    unfold PimgGist.uploadPrologue
    simp [h]
  · intro s h1 h2
    unfold PimgGist.uploadPrologue
    simp [h1, h2]

/-- Witness for C8: the default settings (empty API key) in the primary
variant, and each empty gist-variant field. -/
theorem c8_config_missing_witness :
    uploadImageFile ⟨false, DEFAULT_SETTINGS⟩ sampleFile
        ⟨successFetch, sampleFallback⟩ =
      (⟨false, DEFAULT_SETTINGS⟩,
       { Effects.empty with
         notices := ["Pimg API key is not set. Please set it in the plugin settings."] }) ∧
    PimgGist.uploadPrologue false gistNoToken =
      some "GitHub Access Token is not set. Please set it in the plugin settings." ∧
    PimgGist.uploadPrologue false gistNoUrl =
      some "Worker URL is not set. Please set it in the plugin settings." :=
  ⟨c8_config_missing.1 ⟨false, DEFAULT_SETTINGS⟩ sampleFile
      ⟨successFetch, sampleFallback⟩ rfl rfl,
   c8_config_missing.2.1 gistNoToken rfl,
   c8_config_missing.2.2 gistNoUrl (by decide) rfl⟩

/-- C3: when the remote attempt fails with any reason and `fallbackToLocal`
is enabled and every local step succeeds, the call performs exactly one local
write of the payload bytes (at the allocated path) and exactly one editor
insertion, the markdown image link around the locally resolved reference, and
emits the saved-locally notice. -/
theorem c3_fallback_composition (st : UploadState) (file : ImageFile)
    (env : UploadEnv) (reason path url : String)
    (h1 : st.isUploading = false)
    (h2 : st.settings.pimgAPIKey ≠ "")
    (h3 : 0 < st.settings.creditsBalance)
    (h4 : remoteAttempt st.settings file env.fetch = .error reason)
    (h5 : st.settings.fallbackToLocal = true)
    (h6 : env.fallback = .okEnv path url) :
    uploadImageFile st file env =
      ({ st with isUploading := false },
       { notices := ["GitHub upload failed. Saving image locally...",
                     "Image saved locally as fallback"]
         progressShown := st.settings.showUploadProgress
         progressDismissed := st.settings.showUploadProgress
         insertions := ["![" ++ file.name ++ "](" ++ url ++ ")"]
         networkCalls := 1
         writes := [(path, file.bytes)]
         saves := 0 }) := by
  unfold uploadImageFile uploadPrologue uploadBody
  rw [h1]
  simp [h2, not_le.mpr h3, h4, h5, h6, fallbackToLocalSave]

/-- Witness for C3: the spec's always-failing stub plus a succeeding local
environment. -/
theorem c3_fallback_composition_witness :
    uploadImageFile ⟨false, sampleSettings⟩ sampleFile
        ⟨downFetch, sampleFallback⟩ =
      (⟨false, sampleSettings⟩,
       { notices := ["GitHub upload failed. Saving image locally...",
                     "Image saved locally as fallback"]
         progressShown := true
         progressDismissed := true
         insertions := ["![clipboard.png](app://local/clipboard.png)"]
         networkCalls := 1
         writes := [("vault/clipboard.png", [1, 2, 3, 4, 5, 6, 7, 8, 9, 10])]
         saves := 0 }) :=
  c3_fallback_composition ⟨false, sampleSettings⟩ sampleFile
    ⟨downFetch, sampleFallback⟩ "network down"
    "vault/clipboard.png" "app://local/clipboard.png"
    rfl (by decide) (by decide) rfl rfl rfl

/-- C6: when the remote attempt fails and `fallbackToLocal` is disabled, the
call performs zero local writes and zero editor insertions and emits exactly
one failure notice, which carries the remote failure reason (as a suffix
after the fixed failure prefix). -/
theorem c6_no_fallback_when_disabled (st : UploadState) (file : ImageFile)
    (env : UploadEnv) (reason : String)
    (h1 : st.isUploading = false)
    (h2 : st.settings.pimgAPIKey ≠ "")
    (h3 : 0 < st.settings.creditsBalance)
    (h4 : remoteAttempt st.settings file env.fetch = .error reason)
    (h5 : st.settings.fallbackToLocal = false) :
    uploadImageFile st file env =
      ({ st with isUploading := false },
       { notices := ["GitHub upload failed: " ++ reason]
         progressShown := st.settings.showUploadProgress
         progressDismissed := st.settings.showUploadProgress
         insertions := []
         networkCalls := 1
         writes := []
         saves := 0 }) ∧
    ∃ pre, ("GitHub upload failed: " ++ reason) = pre ++ reason := by
  refine ⟨?_, "GitHub upload failed: ", rfl⟩
  unfold uploadImageFile uploadPrologue uploadBody
  rw [h1]
  simp [h2, not_le.mpr h3, h4, h5]

/-- Witness for C6: the spec's `network down` stub with fallback disabled. -/
theorem c6_no_fallback_when_disabled_witness :
    uploadImageFile ⟨false, { sampleSettings with fallbackToLocal := false }⟩
        sampleFile ⟨downFetch, sampleFallback⟩ =
      (⟨false, { sampleSettings with fallbackToLocal := false }⟩,
       { notices := ["GitHub upload failed: network down"]
         progressShown := true
         progressDismissed := true
         insertions := []
         networkCalls := 1
         writes := []
         saves := 0 }) ∧
    ∃ pre, ("GitHub upload failed: " ++ "network down") = pre ++ "network down" :=
  c6_no_fallback_when_disabled
    ⟨false, { sampleSettings with fallbackToLocal := false }⟩
    sampleFile ⟨downFetch, sampleFallback⟩ "network down"
    rfl (by decide) (by decide) rfl rfl

/-- C7: when the remote attempt yields a (truthy) URL, the call inserts
exactly the string `![<filename>](<url>)`, dismisses the progress indicator
whenever it was shown, emits the success notice, decrements the credits
counter by one, and saves the settings once. -/
theorem c7_success_insertion (st : UploadState) (file : ImageFile)
    (env : UploadEnv) (url : String)
    (h1 : st.isUploading = false)
    (h2 : st.settings.pimgAPIKey ≠ "")
    (h3 : 0 < st.settings.creditsBalance)
    (h4 : remoteAttempt st.settings file env.fetch = .ok url) :
    uploadImageFile st file env =
      ({ isUploading := false
         settings :=
          { st.settings with
            creditsBalance := st.settings.creditsBalance - 1 } },
       { notices := ["✅ Image uploaded successfully!"]
         progressShown := st.settings.showUploadProgress
         progressDismissed := st.settings.showUploadProgress
         insertions := ["![" ++ file.name ++ "](" ++ url ++ ")"]
         networkCalls := 1
         writes := []
         saves := 1 }) := by
  unfold uploadImageFile uploadPrologue uploadBody
  rw [h1]
  simp [h2, not_le.mpr h3, h4]

/-- Witness for C7: the spec's end-to-end scenario — a 10-byte
`clipboard.png` and the stub URL give exactly
`![clipboard.png](https://cdn.example/x.png)`. -/
theorem c7_success_insertion_witness :
    uploadImageFile ⟨false, sampleSettings⟩ sampleFile
        ⟨successFetch, sampleFallback⟩ =
      (⟨false, { sampleSettings with creditsBalance := 499 }⟩,
       { notices := ["✅ Image uploaded successfully!"]
         progressShown := true
         progressDismissed := true
         insertions := ["![clipboard.png](https://cdn.example/x.png)"]
         networkCalls := 1
         writes := []
         saves := 1 }) :=
  c7_success_insertion ⟨false, sampleSettings⟩ sampleFile
    ⟨successFetch, sampleFallback⟩ "https://cdn.example/x.png"
    rfl (by decide) (by decide) rfl

/-- C4 counterexample: a 2xx response whose parsed body carries
`success=false` and an embedded error message `quota exceeded`; the remote
attempt nevertheless fails with the generic `Upload failed` reason, not the
embedded message, refuting the claim as stated. -/
theorem c4_counterexample :
    remoteAttempt sampleSettings sampleFile (.response 200 "" (.ok c4Body)) =
      .error "Upload failed" ∧
    c4Body.error = some "quota exceeded" ∧
    "Upload failed" ≠ "quota exceeded" :=
  ⟨rfl, rfl, by decide⟩

/-- C4 (amended): for every 2xx response whose body parses but carries
`success=false`, the remote attempt fails with the generic reason
`Upload failed` — any embedded error message is ignored — and, with fallback
disabled, that generic reason is the one surfaced in the failure notice. -/
theorem c4_generic_reason_on_unsuccessful_body (st : UploadState)
    (file : ImageFile) (env : UploadEnv)
    (status : Nat) (text : String) (j : RespJson)
    (hs1 : 200 ≤ status) (hs2 : status < 300)
    (hj : j.success = false)
    (hf : env.fetch = .response status text (.ok j))
    (h1 : st.isUploading = false)
    (h2 : st.settings.pimgAPIKey ≠ "")
    (h3 : 0 < st.settings.creditsBalance)
    (h5 : st.settings.fallbackToLocal = false) :
    remoteAttempt st.settings file env.fetch = .error "Upload failed" ∧
    (uploadImageFile st file env).2.notices =
      ["GitHub upload failed: " ++ "Upload failed"] := by
  have hr : remoteAttempt st.settings file env.fetch = .error "Upload failed" := by
    rw [hf]
    unfold remoteAttempt uploadToGitHub
    simp [hs1, hs2, hj]
  refine ⟨hr, ?_⟩
  unfold uploadImageFile uploadPrologue uploadBody
  rw [h1]
  simp [h2, not_le.mpr h3, hr, h5]

/-- Witness for C4 (amended) at the concrete `quota exceeded` body. -/
theorem c4_generic_reason_on_unsuccessful_body_witness :
    remoteAttempt { sampleSettings with fallbackToLocal := false } sampleFile
        (.response 200 "" (.ok c4Body)) = .error "Upload failed" ∧
    (uploadImageFile ⟨false, { sampleSettings with fallbackToLocal := false }⟩
        sampleFile ⟨.response 200 "" (.ok c4Body), sampleFallback⟩).2.notices =
      ["GitHub upload failed: " ++ "Upload failed"] :=
  c4_generic_reason_on_unsuccessful_body
    ⟨false, { sampleSettings with fallbackToLocal := false }⟩
    sampleFile ⟨.response 200 "" (.ok c4Body), sampleFallback⟩
    200 "" c4Body (by decide) (by decide) rfl rfl rfl (by decide)
    (by decide) rfl

/-- C5 counterexample: in `c5Items` the items at indices 0 < 2 are both
image-typed, yet the scan uploads the file of the item at index 2 (the item
at index 0 yields a null file and is passed over), refuting the claim that
only the item at the first image-typed index is uploaded. -/
theorem c5_counterexample :
    strStartsWith (c5Items.get ⟨0, by decide⟩).type "image/" = true ∧
    strStartsWith (c5Items.get ⟨2, by decide⟩).type "image/" = true ∧
    (c5Items.get ⟨0, by decide⟩).asFile = none ∧
    (c5Items.get ⟨2, by decide⟩).asFile = some c5File ∧
    handlePaste (some c5Items) = { uploads := [c5File], prevented := true } := by
  decide

/-- C5 (amended): per paste event at most one upload occurs, and when the
item at index `i1 = pre.length` is the first image-typed item that yields a
non-null file, exactly that item's file is uploaded (one upload call),
default handling is suppressed for the event, and every later item —
including any further image-typed item at an index `i2 > i1` — is ignored. -/
theorem c5_first_image_file_uploaded (pre : List ClipboardItem)
    (it : ClipboardItem) (rest : List ClipboardItem) (f : ImageFile)
    (hpre : ∀ p ∈ pre, uploadableItem p = false)
    (hit : strStartsWith it.type "image/" = true)
    (hf : it.asFile = some f) :
    handlePaste (some (pre ++ it :: rest)) =
      { uploads := [f], prevented := true } := by
  show handlePasteScan (pre ++ it :: rest) = _
  induction pre with
  | nil =>
    simp [handlePasteScan, hit, hf]
  | cons p ps ih =>
    have hp : uploadableItem p = false := hpre p (by simp)
    have hrec := ih (fun q hq => hpre q (by simp [hq]))
    unfold uploadableItem at hp
    by_cases hpt : strStartsWith p.type "image/"
    · cases hpa : p.asFile with
      | none =>
        simpa [handlePasteScan, hpt, hpa] using hrec
      | some g =>
        rw [hpt, hpa] at hp
        simp at hp
    · simpa [handlePasteScan, hpt] using hrec

/-- Witness for C5 (amended): a text item and a null-file image item precede
the first file-yielding image item. -/
theorem c5_first_image_file_uploaded_witness :
    handlePaste
        (some ([{ type := "image/png", asFile := none },
                { type := "text/plain", asFile := none }] ++
               { type := "image/jpeg", asFile := some c5File } :: [])) =
      { uploads := [c5File], prevented := true } :=
  c5_first_image_file_uploaded
    [{ type := "image/png", asFile := none },
     { type := "text/plain", asFile := none }]
    { type := "image/jpeg", asFile := some c5File } [] c5File
    (by decide) (by decide) rfl

/-- C10: the paste scan uploads exactly the first image-typed item whose
`getAsFile()` is non-null — an image-typed item with a null file is passed
over without suppressing default handling and the scan continues, so the
uploaded item can sit at a later index than the first image-typed item — and
`preventDefault` runs exactly when such an item exists. -/
theorem c10_paste_skips_null_file_items (items : List ClipboardItem) :
    handlePaste (some items) =
      match items.find? uploadableItem with
      | some it => { uploads := it.asFile.toList, prevented := true }
      | none => { uploads := [], prevented := false } := by
  show handlePasteScan items = _
  induction items with
  | nil => rfl
  | cons it rest ih =>
    by_cases ht : strStartsWith it.type "image/"
    · cases ha : it.asFile with
      | some f =>
        simp [handlePasteScan, List.find?, uploadableItem, ht, ha]
      | none =>
        simp [handlePasteScan, List.find?, uploadableItem, ht, ha, ih]
    · simp [handlePasteScan, List.find?, uploadableItem, ht, ih]
